import Mathlib

/-!
Shallow embedding of `src/main.rs` of the termongo repository: a terminal
client that browses a mongo-style store (databases → collections → records)
with a three-state navigation machine driven by key events.

The embedding models:
  * the `App` struct and its `change_state` method (the Database handle is
    represented by its name; colour markup around printed text is dropped,
    only the textual payload of each printed line is kept);
  * the event loop of `main` as a `step` function on a system state that
    pairs the `App` with the terminal cursor row;
  * the remote store and the terminal as an `Env` of oracles, following the
    Catalog Client / Terminal contracts: cursor moves clamp at the screen
    edges (`MoveUp` at row 0 and `MoveDown` at the bottom row are no-ops),
    `MoveToRow` clamps to the last row, and each printed line advances the
    cursor one row;
  * every observable side effect (raw-mode toggles, clears, printed lines,
    remote calls, cursor repositioning) as an `Action` trace, and the three
    ways a handler can finish (normal return, a propagated `anyhow` error
    which `main`'s `?` turns into process termination, a panic, or
    `process::exit(0)`) as a `RunRes`.
-/

namespace Termongo

/-- The `State` enum of the source: `Default`, `InsideDatabase`,
`InsideCollection`. -/
inductive State where
  | Default
  | InsideDatabase
  | InsideCollection
deriving DecidableEq

/-- A `(String, usize)` entry of a selection list: label and zero-based
position. -/
abbrev Entry := String × Nat

/-- The `App` struct of the source.  The `client` field (the store handle) is
left to the environment; the `Database` handle in `database` is represented by
the database's name. -/
structure App where
  state : State
  list : List Entry
  collection_name : String
  collection_list : Option (List Entry)
  database : Option String
  database_name : String
  previous_line : Nat
deriving DecidableEq

/-- Errors propagated out of `change_state` as `anyhow::Result` errors:
`query` is a driver error forwarded by `?` (e.g. `list_collection_names`
failing), `noCursor` is the explicit `anyhow!("No cursor found.")`. -/
inductive Err where
  | query
  | noCursor
deriving DecidableEq

/-- How a key-event handler (or `change_state`) finishes: normal return, a
propagated error (which the `?` in `main` turns into process termination), a
panic (`expect`/`unwrap` firing), or `process::exit(0)`. -/
inductive RunRes where
  | ok
  | err (e : Err)
  | panicked (msg : String)
  | exit0
deriving DecidableEq

/-- One observable side effect of the program, in program order. -/
inductive Action where
  | disableRaw
  | enableRaw
  | clearScreen
  | printHeader (s : String)
  | printItem (s : String)
  | printRecord (s : String)
  | fetchListCollections (db : String)
  | fetchFind (db : String) (coll : String)
  | moveToRow (r : Nat)
deriving DecidableEq

/-- The environment: the remote Catalog Client oracles and the terminal
height.  `listCollectionNames name` models `db.list_collection_names`;
`findRecords db coll` models opening the find cursor (outer `Except`, the
cursor-open failure) and then `try_collect` on it (inner `Except`, a
mid-stream failure). -/
structure Env where
  listCollectionNames : String → Except Unit (List String)
  findRecords : String → String → Except Unit (Except Unit (List String))
  height : Nat

/-- The system state the event loop acts on: the `App` plus the terminal's
current cursor row (an external mutable integer per the Terminal contract). -/
structure Sys where
  app : App
  row : Nat
deriving DecidableEq

/-- Key events as the source's match arms read them: `Enter` is Confirm,
`Escape` is Cancel. -/
inductive Key where
  | down
  | up
  | enter
  | escape
  | other
deriving DecidableEq

/-- Rust's `.into_iter().enumerate().map(|(i, x)| (x, i)).collect()`. -/
def enumerateList (names : List String) : List Entry :=
  names.enum.map (fun p => (p.2, p.1))

/-- The `cprintln!("<green>></green>  {}", item.0)` loop: one printed line per
entry, keeping the textual label. -/
def renderItems (l : List Entry) : List Action :=
  l.map (fun e => Action.printItem e.1)

/-- Terminal clamp of a requested row to the screen (`MoveToRow` on a row past
the bottom stops at the last row). -/
def clampRow (env : Env) (r : Nat) : Nat :=
  min r (env.height - 1)

/-- The `App::change_state` method.  It disables raw mode, clears the screen,
renders the target level (issuing the remote call for that level where the
source does), repositions the cursor with
`MoveToRow(self.previous_line as u16 + 1)` and re-enables raw mode; a failing
remote call makes it return early (the `?` / explicit `return Err`), after
which neither the reposition nor the raw-mode re-enable happens. -/
def change_state (env : Env) (s : Sys) (state : State) (database : Option String) :
    Sys × List Action × RunRes :=
  match state with
  | State.Default =>
      (⟨s.app, clampRow env (s.app.previous_line + 1)⟩,
       [Action.disableRaw, Action.clearScreen] ++ renderItems s.app.list
         ++ [Action.moveToRow (s.app.previous_line + 1), Action.enableRaw],
       RunRes.ok)
  | State.InsideDatabase =>
      match database with
      | none =>
          (⟨s.app, 0⟩, [Action.disableRaw, Action.clearScreen],
           RunRes.panicked "unwrap on None")
      | some name =>
          match env.listCollectionNames name with
          | Except.error _ =>
              (⟨s.app, clampRow env 1⟩,
               [Action.disableRaw, Action.clearScreen,
                Action.printHeader ("/" ++ name),
                Action.fetchListCollections name],
               RunRes.err Err.query)
          | Except.ok names =>
              (⟨{ s.app with
                    collection_list := some (enumerateList names),
                    database := some name },
                clampRow env (s.app.previous_line + 1)⟩,
               [Action.disableRaw, Action.clearScreen,
                Action.printHeader ("/" ++ name),
                Action.fetchListCollections name]
                 ++ renderItems (enumerateList names)
                 ++ [Action.moveToRow (s.app.previous_line + 1), Action.enableRaw],
               RunRes.ok)
  | State.InsideCollection =>
      match s.app.database with
      | none =>
          (⟨s.app, 0⟩, [Action.disableRaw, Action.clearScreen],
           RunRes.panicked "unwrap on None")
      | some dbName =>
          match database with
          | none =>
              (⟨s.app, 0⟩, [Action.disableRaw, Action.clearScreen],
               RunRes.panicked "No data.")
          | some coll =>
              match env.findRecords dbName coll with
              | Except.error _ =>
                  (⟨s.app, 0⟩,
                   [Action.disableRaw, Action.clearScreen,
                    Action.fetchFind dbName coll],
                   RunRes.err Err.noCursor)
              | Except.ok inner =>
                  (⟨s.app, clampRow env (s.app.previous_line + 1)⟩,
                   [Action.disableRaw, Action.clearScreen,
                    Action.fetchFind dbName coll,
                    Action.printHeader (s.app.database_name ++ "/" ++ coll)]
                     ++ (match inner with
                         | Except.ok v => v
                         | Except.error _ => []).map (fun r => Action.printRecord r)
                     ++ [Action.moveToRow (s.app.previous_line + 1),
                         Action.enableRaw],
                   RunRes.ok)

/-- The index the `InsideDatabase` Enter arm derives from the cursor row:
`(cursor::position()?.1 - 1)` on a `u16`, i.e. wrapping subtraction of one
modulo 2^16 (row 0 yields 65535). -/
def dbIndex (row : Nat) : Nat :=
  (row + 65535) % 65536

/-- The `for` loop of the `InsideDatabase` Enter arm: it walks the taken
collection list without a `break`, and for every entry whose position equals
the derived index it mutates the app and calls `change_state` into
`InsideCollection`; a propagated error or panic stops the loop. -/
def dbEnterLoop (env : Env) (index : Nat) :
    List Entry → Sys → List Action → Sys × List Action × RunRes
  | [], s, tr => (s, tr, RunRes.ok)
  | e :: rest, s, tr =>
      if e.2 == index then
        let a1 : App :=
          { s.app with
              previous_line := index,
              state := State.InsideCollection,
              collection_name := e.1 }
        match change_state env ⟨a1, s.row⟩ State.InsideCollection (some e.1) with
        | (s2, tr2, RunRes.ok) => dbEnterLoop env index rest s2 (tr ++ tr2)
        | (s2, tr2, r) => (s2, tr ++ tr2, r)
      else
        dbEnterLoop env index rest s tr

/-- One iteration of the event loop of `main`: dispatch on
`(app.state, key)`.  Down/Up move the terminal cursor (clamped at the screen
edges by the terminal), Enter resolves the selected item from the cursor row,
Escape cancels (or exits at the top level). -/
def step (env : Env) (s : Sys) (k : Key) : Sys × List Action × RunRes :=
  match s.app.state with
  | State.Default =>
      match k with
      | Key.escape => (s, [Action.disableRaw], RunRes.exit0)
      | Key.down => (⟨s.app, clampRow env (s.row + 1)⟩, [], RunRes.ok)
      | Key.up => (⟨s.app, s.row - 1⟩, [], RunRes.ok)
      | Key.enter =>
          match s.app.list.find? (fun e => e.2 == s.row) with
          | none => (s, [], RunRes.ok)
          | some e =>
              let a1 : App :=
                { s.app with
                    previous_line := s.row,
                    state := State.InsideDatabase,
                    database_name := e.1 }
              change_state env ⟨a1, s.row⟩ State.InsideDatabase (some e.1)
      | Key.other => (s, [], RunRes.ok)
  | State.InsideDatabase =>
      match k with
      | Key.down => (⟨s.app, clampRow env (s.row + 1)⟩, [], RunRes.ok)
      | Key.up => (⟨s.app, s.row - 1⟩, [], RunRes.ok)
      | Key.escape =>
          let a1 : App := { s.app with state := State.Default }
          change_state env ⟨a1, s.row⟩ State.Default (some "none")
      | Key.enter =>
          match s.app.collection_list with
          | none => (s, [], RunRes.panicked "No collection found.")
          | some collection =>
              let a1 : App := { s.app with collection_list := none }
              dbEnterLoop env (dbIndex s.row) collection ⟨a1, s.row⟩ []
      | Key.other => (s, [], RunRes.ok)
  | State.InsideCollection =>
      match k with
      | Key.down => (⟨s.app, clampRow env (s.row + 1)⟩, [], RunRes.ok)
      | Key.up => (⟨s.app, s.row - 1⟩, [], RunRes.ok)
      | Key.escape =>
          let a1 : App := { s.app with state := State.InsideDatabase }
          change_state env ⟨a1, s.row⟩ State.InsideDatabase (some s.app.database_name)
      | _ => (s, [], RunRes.ok)

/-- Run a list of key events through the loop; an abnormal result stops the
run as it does in `main` (the `?` propagates, a panic unwinds, `exit(0)`
terminates). -/
def runKeys (env : Env) (s : Sys) : List Key → Sys × List Action × RunRes
  | [] => (s, [], RunRes.ok)
  | k :: ks =>
      match step env s k with
      | (s1, tr1, RunRes.ok) =>
          match runKeys env s1 ks with
          | (s2, tr2, r2) => (s2, tr1 ++ tr2, r2)
      | (s1, tr1, r) => (s1, tr1, r)

/-- The `App` value built in `main` after the startup
`list_database_names` fetch succeeded with `rootNames`. -/
def initApp (rootNames : List String) : App :=
  { state := State.Default,
    list := enumerateList rootNames,
    collection_name := "",
    collection_list := none,
    database := none,
    database_name := "None",
    previous_line := 1 }

/-- The startup render in `main`: enable then disable raw mode, move to row 0
and clear, print one line per top-level entry, re-enable raw mode.  It does
NOT reposition the cursor afterwards, so the cursor ends one row below the
last printed entry. -/
def initialRender (env : Env) (a : App) : Sys × List Action :=
  (⟨a, clampRow env a.list.length⟩,
   [Action.enableRaw, Action.disableRaw, Action.clearScreen]
     ++ renderItems a.list ++ [Action.enableRaw])

/-- Whether an action is a remote call. -/
def isFetch : Action → Bool
  | Action.fetchListCollections _ => true
  | Action.fetchFind _ _ => true
  | _ => false

/-- Whether an action is part of the redraw (screen clear, header, list or
record lines). -/
def isRender : Action → Bool
  | Action.clearScreen => true
  | Action.printHeader _ => true
  | Action.printItem _ => true
  | Action.printRecord _ => true
  | _ => false

/-- Whether an action is a printed list-item line. -/
def isItemLine : Action → Bool
  | Action.printItem _ => true
  | _ => false

/-- The claimed rendering discipline, following the spec's words: no render
action is emitted until every fetch of the trace has completed, i.e. every
action before the first fetch is a non-render action. -/
def noRenderBeforeFetch (tr : List Action) : Bool :=
  (tr.takeWhile (fun a => !isFetch a)).all (fun a => !isRender a)

/-- The header-row offset as the spec states it: 0 rows at Root level, 1 row
inside a container or collection. -/
def specHeaderOffset : State → Nat
  | State.Default => 0
  | _ => 1

/-- A store in which every remote call succeeds: every database has
collections `c0`, `c1`, and every find returns an empty record set. -/
def envOk : Env :=
  { listCollectionNames := fun _ => Except.ok ["c0", "c1"],
    findRecords := fun _ _ => Except.ok (Except.ok []),
    height := 24 }

/-- A store in which every remote call fails. -/
def envFail : Env :=
  { listCollectionNames := fun _ => Except.error (),
    findRecords := fun _ _ => Except.error (),
    height := 24 }

/-- An `App` sitting inside database `alpha` whose (already fetched)
collection list is empty. -/
def dbAppEmpty : App :=
  { state := State.InsideDatabase,
    list := enumerateList ["alpha"],
    collection_name := "",
    collection_list := some [],
    database := some "alpha",
    database_name := "alpha",
    previous_line := 0 }

/- ### Helper lemmas -/

/-- A Down or Up key never changes the `App`, never emits an action, and
never fails, in every navigation state: it only moves the terminal cursor. -/
lemma step_down_up (env : Env) (s : Sys) (k : Key)
    (hk : k = Key.down ∨ k = Key.up) :
    step env s k =
      (⟨s.app, if k = Key.down then clampRow env (s.row + 1) else s.row - 1⟩,
       [], RunRes.ok) := by
  rcases hk with hk | hk <;> subst hk <;>
    cases h : s.app.state <;> simp [step, h]

/-- The cursor row stays at or below the last screen row under a Down or Up
key. -/
lemma step_down_up_row_le (env : Env) (s : Sys) (k : Key)
    (hk : k = Key.down ∨ k = Key.up) (hs : s.row ≤ env.height - 1) :
    (step env s k).1.row ≤ env.height - 1 := by
  rw [step_down_up env s k hk]
  rcases hk with hk | hk <;> subst hk <;> simp [clampRow]
  omega

/- ### Claim theorems -/

/-- C3 (counterexample).  The claim that the selected index never exceeds
`len(list) - 1` and that moving past the boundary is a no-op fails: with the
single-entry list of `initApp ["a"]` at Root level and the cursor on row 0
(index 0, the last valid index), one Down key moves the cursor to row 1, so
the derived index becomes 1, strictly beyond `len(list) - 1 = 0`. -/
theorem down_past_list_end_cex :
    (step envOk ⟨initApp ["a"], 0⟩ Key.down).1.row = 1 ∧
    ¬ (step envOk ⟨initApp ["a"], 0⟩ Key.down).1.row ≤
        (initApp ["a"]).list.length - 1 := by
  decide

/-- C3 (amended).  For every sequence of Down/Up key events in any navigation
state, the event loop succeeds, the `App` is unchanged, and the cursor row
stays within `[0, height-1]` (the terminal clamps at the screen edges); Up at
row 0 is a no-op on the whole system state.  The index is bounded only by the
screen, not by the list length. -/
theorem down_up_row_bounded (env : Env) (s : Sys) (keys : List Key)
    (hk : ∀ k ∈ keys, k = Key.down ∨ k = Key.up)
    (hs : s.row ≤ env.height - 1) :
    ((runKeys env s keys).2.2 = RunRes.ok ∧
      (runKeys env s keys).1.app = s.app ∧
      (runKeys env s keys).1.row ≤ env.height - 1) ∧
    (s.row = 0 →
      (step env s Key.up).1.app = s.app ∧ (step env s Key.up).1.row = s.row) := by
  constructor
  · induction keys generalizing s with
    | nil => exact ⟨rfl, rfl, hs⟩
    | cons k ks ih =>
        have hk1 : k = Key.down ∨ k = Key.up := hk k (by simp)
        have hrow := step_down_up_row_le env s k hk1 hs
        have happ : (step env s k).1.app = s.app := by
          rw [step_down_up env s k hk1]
        have hks : ∀ x ∈ ks, x = Key.down ∨ x = Key.up :=
          fun x hx => hk x (by simp [hx])
        have ihk := ih (step env s k).1 hks hrow
        have hs1 : (step env s k).1 =
            ⟨s.app, if k = Key.down then clampRow env (s.row + 1) else s.row - 1⟩ := by
          rw [step_down_up env s k hk1]
        simp only [runKeys, step_down_up env s k hk1]
        rw [← hs1]
        exact ⟨ihk.1, happ ▸ ihk.2.1, ihk.2.2⟩
  · intro h0
    rw [step_down_up env s Key.up (Or.inr rfl)]
    simp [h0]

/-- C3 (witness for the amended theorem). -/
theorem down_up_row_bounded_witness :
    ((∀ k ∈ [Key.down, Key.down, Key.up], k = Key.down ∨ k = Key.up) ∧
      (0 : Nat) ≤ envOk.height - 1) ∧
    (((runKeys envOk ⟨initApp ["a"], 0⟩ [Key.down, Key.down, Key.up]).2.2 =
        RunRes.ok ∧
      (runKeys envOk ⟨initApp ["a"], 0⟩ [Key.down, Key.down, Key.up]).1.app =
        (initApp ["a"]) ∧
      (runKeys envOk ⟨initApp ["a"], 0⟩ [Key.down, Key.down, Key.up]).1.row ≤
        envOk.height - 1) ∧
    ((Sys.mk (initApp ["a"]) 0).row = 0 →
      (step envOk ⟨initApp ["a"], 0⟩ Key.up).1.app = (initApp ["a"]) ∧
      (step envOk ⟨initApp ["a"], 0⟩ Key.up).1.row =
        (Sys.mk (initApp ["a"]) 0).row)) :=
  ⟨⟨by decide, by decide⟩,
   down_up_row_bounded envOk ⟨initApp ["a"], 0⟩ [Key.down, Key.down, Key.up]
     (by decide) (by decide)⟩

/-- C1 (counterexample).  With the store refusing the sub-container listing,
a Confirm at Root on `"alpha"` does not leave `NavigationState` at its prior
value `Root` and is not recovered: the state has already been mutated to
`InsideDatabase` before the fetch, and `change_state` returns the error,
which the `?` in `main`'s event loop propagates out of `main`, terminating
the process. -/
theorem confirm_failure_cex :
    (step envFail ⟨initApp ["alpha"], 0⟩ Key.enter).1.app.state =
      State.InsideDatabase ∧
    (step envFail ⟨initApp ["alpha"], 0⟩ Key.enter).2.2 =
      RunRes.err Err.query := by
  decide

/-- C1 (amended).  A failing remote call on a confirm transition is not an
abort that preserves the prior state: the navigation-state fields are mutated
to the target state before the remote call is issued, no error message is
rendered, and the error returns out of `change_state` into the `?` of the
event loop, which terminates the process.  This holds both for a Confirm at
Root with a failing sub-container listing and for a Confirm inside a database
with a failing record fetch. -/
theorem confirm_failure_propagates :
    (∀ (env : Env) (list : List Entry) (cn : String)
        (cl : Option (List Entry)) (db : Option String) (dbn : String)
        (pl row : Nat) (e : Entry),
      list.find? (fun x => x.2 == row) = some e →
      env.listCollectionNames e.1 = Except.error () →
      step env ⟨⟨State.Default, list, cn, cl, db, dbn, pl⟩, row⟩ Key.enter =
        (⟨⟨State.InsideDatabase, list, cn, cl, db, e.1, row⟩, clampRow env 1⟩,
         [Action.disableRaw, Action.clearScreen,
          Action.printHeader ("/" ++ e.1), Action.fetchListCollections e.1],
         RunRes.err Err.query)) ∧
    (∀ (env : Env) (list : List Entry) (cn coll dbh dbn : String)
        (pl row : Nat),
      env.findRecords dbh coll = Except.error () →
      step env
          ⟨⟨State.InsideDatabase, list, cn, some [(coll, dbIndex row)],
            some dbh, dbn, pl⟩, row⟩ Key.enter =
        (⟨⟨State.InsideCollection, list, coll, none, some dbh, dbn,
            dbIndex row⟩, 0⟩,
         [Action.disableRaw, Action.clearScreen, Action.fetchFind dbh coll],
         RunRes.err Err.noCursor)) := by
  constructor
  · intro env list cn cl db dbn pl row e hfind hfail
    simp [step, change_state, hfind, hfail]
  · intro env list cn coll dbh dbn pl row hfail
    simp [step, dbEnterLoop, change_state, hfail]

/-- C1 (witness for the amended theorem). -/
theorem confirm_failure_propagates_witness :
    ([(("alpha", 0) : Entry)].find? (fun x => x.2 == 0) = some ("alpha", 0) ∧
      envFail.listCollectionNames "alpha" = Except.error () ∧
      envFail.findRecords "alpha" "beta" = Except.error ()) ∧
    step envFail ⟨⟨State.Default, [("alpha", 0)], "", none, none, "None", 1⟩,
        0⟩ Key.enter =
      (⟨⟨State.InsideDatabase, [("alpha", 0)], "", none, none, "alpha", 0⟩,
        clampRow envFail 1⟩,
       [Action.disableRaw, Action.clearScreen, Action.printHeader "/alpha",
        Action.fetchListCollections "alpha"],
       RunRes.err Err.query) ∧
    step envFail ⟨⟨State.InsideDatabase, [], "", some [("beta", dbIndex 1)],
        some "alpha", "alpha", 0⟩, 1⟩ Key.enter =
      (⟨⟨State.InsideCollection, [], "beta", none, some "alpha", "alpha",
          dbIndex 1⟩, 0⟩,
       [Action.disableRaw, Action.clearScreen, Action.fetchFind "alpha" "beta"],
       RunRes.err Err.noCursor) :=
  ⟨⟨by decide, rfl, rfl⟩,
   confirm_failure_propagates.1 envFail [("alpha", 0)] "" none none "None" 1 0
     ("alpha", 0) (by decide) rfl,
   confirm_failure_propagates.2 envFail [] "" "beta" "alpha" "alpha" 0 1 rfl⟩

/-- C2 (code bug).  Inside a database whose fetched collection list is empty,
the first Confirm is accepted by the claim's defensive rule only in part: it
does not crash, but `collection_list.take()` leaves `collection_list = None`
(state corruption); the second Confirm then panics at
`expect("No collection found.")`.  The claim — silently skipped, no crash, no
corruption, for every subsequent Confirm too — is what the code's own
`expect` message assumes, and the code violates it. -/
theorem empty_list_confirm_take_panics :
    (step envOk ⟨dbAppEmpty, 1⟩ Key.enter).2.2 = RunRes.ok ∧
    (step envOk ⟨dbAppEmpty, 1⟩ Key.enter).1.app.state =
      State.InsideDatabase ∧
    (step envOk ⟨dbAppEmpty, 1⟩ Key.enter).1.app.collection_list = none ∧
    (step envOk (step envOk ⟨dbAppEmpty, 1⟩ Key.enter).1 Key.enter).2.2 =
      RunRes.panicked "No collection found." := by
  decide

/-- Every trace of the shape `front ++ [a, b]` ends in `b`. -/
lemma getLast?_append_pair {α : Type} (l : List α) (a b : α) :
    (l ++ [a, b]).getLast? = some b := by
  rw [List.getLast?_append_cons]
  rfl

/-- The trace of a `Default` redraw contains no remote call. -/
lemma no_fetch_default_trace (l : List Entry) (pl : Nat) :
    ∀ a ∈ [Action.disableRaw, Action.clearScreen] ++ renderItems l
        ++ [Action.moveToRow pl, Action.enableRaw], isFetch a = false := by
  intro a ha
  rcases List.mem_append.1 ha with h | h
  · rcases List.mem_append.1 h with h | h
    · simp at h
      rcases h with rfl | rfl <;> rfl
    · obtain ⟨e, -, rfl⟩ := List.mem_map.1 h
      rfl
  · simp at h
    rcases h with rfl | rfl <;> rfl

/-- C4 (counterexample).  The claimed rendering discipline — no part of the
redraw is emitted until the transition's fetch has completed — fails on the
very first confirm into a database: the screen clear and the `/alpha` header
line are printed before `list_collection_names` is called. -/
theorem render_before_fetch_cex :
    noRenderBeforeFetch
      (change_state envOk ⟨dbAppEmpty, 1⟩ State.InsideDatabase
        (some "alpha")).2.1 = false ∧
    List.take 4
        (change_state envOk ⟨dbAppEmpty, 1⟩ State.InsideDatabase
          (some "alpha")).2.1 =
      [Action.disableRaw, Action.clearScreen, Action.printHeader "/alpha",
       Action.fetchListCollections "alpha"] := by
  decide

/-- C4 (amended).  Only the per-item body lines wait for the fetch: entering
a database, the screen clear and the header line are printed before the
listing call is issued and the item lines only after it completes; entering a
collection, the clear precedes the find call and the header and record lines
follow it.  Nothing else is interleaved between the call and the body
lines. -/
theorem render_order (env : Env) (s : Sys) :
    (∀ name names, env.listCollectionNames name = Except.ok names →
      (change_state env s State.InsideDatabase (some name)).2.1 =
        [Action.disableRaw, Action.clearScreen,
         Action.printHeader ("/" ++ name), Action.fetchListCollections name]
          ++ renderItems (enumerateList names)
          ++ [Action.moveToRow (s.app.previous_line + 1), Action.enableRaw]) ∧
    (∀ dbh coll recs, s.app.database = some dbh →
      env.findRecords dbh coll = Except.ok (Except.ok recs) →
      (change_state env s State.InsideCollection (some coll)).2.1 =
        [Action.disableRaw, Action.clearScreen, Action.fetchFind dbh coll,
         Action.printHeader (s.app.database_name ++ "/" ++ coll)]
          ++ recs.map (fun r => Action.printRecord r)
          ++ [Action.moveToRow (s.app.previous_line + 1), Action.enableRaw]) := by
  constructor
  · intro name names hfetch
    simp [change_state, hfetch]
  · intro dbh coll recs hdb hfetch
    simp [change_state, hdb, hfetch]

/-- C4 (witness for the amended theorem). -/
theorem render_order_witness :
    (envOk.listCollectionNames "alpha" = Except.ok ["c0", "c1"] ∧
      dbAppEmpty.database = some "alpha" ∧
      envOk.findRecords "alpha" "beta" = Except.ok (Except.ok [])) ∧
    (change_state envOk ⟨dbAppEmpty, 1⟩ State.InsideDatabase
        (some "alpha")).2.1 =
      [Action.disableRaw, Action.clearScreen, Action.printHeader "/alpha",
       Action.fetchListCollections "alpha"]
        ++ renderItems (enumerateList ["c0", "c1"])
        ++ [Action.moveToRow (dbAppEmpty.previous_line + 1),
            Action.enableRaw] ∧
    (change_state envOk ⟨dbAppEmpty, 1⟩ State.InsideCollection
        (some "beta")).2.1 =
      [Action.disableRaw, Action.clearScreen, Action.fetchFind "alpha" "beta",
       Action.printHeader (dbAppEmpty.database_name ++ "/" ++ "beta")]
        ++ List.map (fun r => Action.printRecord r) []
        ++ [Action.moveToRow (dbAppEmpty.previous_line + 1),
            Action.enableRaw] :=
  ⟨⟨rfl, rfl, rfl⟩,
   (render_order envOk ⟨dbAppEmpty, 1⟩).1 "alpha" ["c0", "c1"] rfl,
   (render_order envOk ⟨dbAppEmpty, 1⟩).2 "alpha" "beta" [] rfl rfl⟩

/-- C5 (counterexample).  On the error exit path raw mode is not restored:
with the sub-container listing failing, `change_state` into the database
disables raw mode, prints, and returns the error without ever re-enabling
raw mode. -/
theorem raw_mode_error_cex :
    (change_state envFail ⟨dbAppEmpty, 1⟩ State.InsideDatabase
        (some "alpha")).2.2 = RunRes.err Err.query ∧
    Action.disableRaw ∈
      (change_state envFail ⟨dbAppEmpty, 1⟩ State.InsideDatabase
        (some "alpha")).2.1 ∧
    Action.enableRaw ∉
      (change_state envFail ⟨dbAppEmpty, 1⟩ State.InsideDatabase
        (some "alpha")).2.1 := by
  decide

/-- C5 (amended).  Raw mode is disabled as the first action of every
`change_state` transition; on the successful path it is re-enabled as the
last action, after the redraw; on the error path of a failed fetch it is
never re-enabled — `change_state` returns early and the propagated error then
terminates the process. -/
theorem raw_mode_discipline (env : Env) (s : Sys) (st : State)
    (d : Option String) :
    (change_state env s st d).2.1.head? = some Action.disableRaw ∧
    ((change_state env s st d).2.2 = RunRes.ok →
      (change_state env s st d).2.1.getLast? = some Action.enableRaw) ∧
    (∀ e, (change_state env s st d).2.2 = RunRes.err e →
      Action.enableRaw ∉ (change_state env s st d).2.1) := by
  cases st with
  | Default =>
      refine ⟨by simp [change_state], fun _ => ?_, fun e he => ?_⟩
      · show (([Action.disableRaw, Action.clearScreen]
            ++ renderItems s.app.list)
            ++ [Action.moveToRow (s.app.previous_line + 1),
                Action.enableRaw]).getLast? = some Action.enableRaw
        exact getLast?_append_pair _ _ _
      · simp [change_state] at he
  | InsideDatabase =>
      cases d with
      | none => exact ⟨by simp [change_state], by simp [change_state],
          fun e he => by simp [change_state] at he⟩
      | some name =>
          cases hfetch : env.listCollectionNames name with
          | error u =>
              refine ⟨by simp [change_state, hfetch], fun hok => ?_,
                fun e he => ?_⟩
              · simp [change_state, hfetch] at hok
              · simp [change_state, hfetch]
          | ok names =>
              refine ⟨by simp [change_state, hfetch], fun _ => ?_,
                fun e he => ?_⟩
              · simp only [change_state, hfetch]
                exact getLast?_append_pair _ _ _
              · simp [change_state, hfetch] at he
  | InsideCollection =>
      cases hdb : s.app.database with
      | none => exact ⟨by simp [change_state, hdb],
          by simp [change_state, hdb],
          fun e he => by simp [change_state, hdb] at he⟩
      | some dbh =>
          cases d with
          | none => exact ⟨by simp [change_state, hdb],
              by simp [change_state, hdb],
              fun e he => by simp [change_state, hdb] at he⟩
          | some coll =>
              cases hfetch : env.findRecords dbh coll with
              | error u =>
                  refine ⟨by simp [change_state, hdb, hfetch], fun hok => ?_,
                    fun e he => ?_⟩
                  · simp [change_state, hdb, hfetch] at hok
                  · simp [change_state, hdb, hfetch]
              | ok inner =>
                  refine ⟨by simp [change_state, hdb, hfetch], fun _ => ?_,
                    fun e he => ?_⟩
                  · simp only [change_state, hdb, hfetch]
                    exact getLast?_append_pair _ _ _
                  · simp [change_state, hdb, hfetch] at he

/-- C5 (witness for the amended theorem). -/
theorem raw_mode_discipline_witness :
    (change_state envFail ⟨dbAppEmpty, 1⟩ State.InsideDatabase
        (some "alpha")).2.1.head? = some Action.disableRaw ∧
    ((change_state envFail ⟨dbAppEmpty, 1⟩ State.InsideDatabase
        (some "alpha")).2.2 = RunRes.ok →
      (change_state envFail ⟨dbAppEmpty, 1⟩ State.InsideDatabase
        (some "alpha")).2.1.getLast? = some Action.enableRaw) ∧
    (∀ e, (change_state envFail ⟨dbAppEmpty, 1⟩ State.InsideDatabase
        (some "alpha")).2.2 = RunRes.err e →
      Action.enableRaw ∉
        (change_state envFail ⟨dbAppEmpty, 1⟩ State.InsideDatabase
          (some "alpha")).2.1) :=
  raw_mode_discipline envFail ⟨dbAppEmpty, 1⟩ State.InsideDatabase
    (some "alpha")

/-- C6 (counterexample).  The fresh initial render of `["alpha", "beta"]`
leaves the cursor on row 2, one row below the last entry (`main` never
repositions it); pressing Down then Confirm therefore resolves index 3,
matches no entry, and is silently skipped: the state remains `Root` and no
database is entered, instead of selecting `"beta"`. -/
theorem fresh_render_down_confirm_cex :
    (initialRender envOk (initApp ["alpha", "beta"])).1.row = 2 ∧
    (runKeys envOk (initialRender envOk (initApp ["alpha", "beta"])).1
        [Key.down, Key.enter]).1.app.state = State.Default ∧
    (runKeys envOk (initialRender envOk (initApp ["alpha", "beta"])).1
        [Key.down, Key.enter]).1.app.database_name = "None" := by
  decide

/-- C6 (amended).  Starting at Root with container list `["alpha", "beta"]`
and the cursor on row 0 (which is where the top entry sits — the fresh
initial render itself leaves the cursor below the list), pressing Down once
and then Confirm selects `"beta"` and transitions into the database
`"beta"`. -/
theorem down_confirm_selects_beta (env : Env) (names : List String)
    (hh : 2 ≤ env.height)
    (hfetch : env.listCollectionNames "beta" = Except.ok names) :
    (runKeys env ⟨initApp ["alpha", "beta"], 0⟩ [Key.down, Key.enter]).2.2 =
      RunRes.ok ∧
    (runKeys env ⟨initApp ["alpha", "beta"], 0⟩
        [Key.down, Key.enter]).1.app.state = State.InsideDatabase ∧
    (runKeys env ⟨initApp ["alpha", "beta"], 0⟩
        [Key.down, Key.enter]).1.app.database_name = "beta" ∧
    (runKeys env ⟨initApp ["alpha", "beta"], 0⟩
        [Key.down, Key.enter]).1.app.previous_line = 1 := by
  have hrow : clampRow env (0 + 1) = 1 := by
    simp [clampRow]; omega
  have hl : enumerateList ["alpha", "beta"] =
      [("alpha", 0), ("beta", 1)] := by decide
  have hfind : List.find? (fun e => e.2 == 1) [("alpha", 0), ("beta", 1)] =
      some ("beta", 1) := by decide
  simp [runKeys, step, hrow, hl, hfind, change_state, hfetch, initApp]

/-- C6 (witness for the amended theorem). -/
theorem down_confirm_selects_beta_witness :
    (2 ≤ envOk.height ∧
      envOk.listCollectionNames "beta" = Except.ok ["c0", "c1"]) ∧
    ((runKeys envOk ⟨initApp ["alpha", "beta"], 0⟩
        [Key.down, Key.enter]).2.2 = RunRes.ok ∧
      (runKeys envOk ⟨initApp ["alpha", "beta"], 0⟩
        [Key.down, Key.enter]).1.app.state = State.InsideDatabase ∧
      (runKeys envOk ⟨initApp ["alpha", "beta"], 0⟩
        [Key.down, Key.enter]).1.app.database_name = "beta" ∧
      (runKeys envOk ⟨initApp ["alpha", "beta"], 0⟩
        [Key.down, Key.enter]).1.app.previous_line = 1) :=
  ⟨⟨by decide, rfl⟩,
   down_confirm_selects_beta envOk ["c0", "c1"] (by decide) rfl⟩

/-- C7 (confirmed).  Confirming into a container and cancelling right back:
the resulting state is `Root` again with the same selection list, the cancel
render performs no remote call, and its item lines are exactly the item lines
of the initial Root render of the same list. -/
theorem confirm_cancel_round_trip (env : Env) (list : List Entry)
    (cn : String) (cl : Option (List Entry)) (db : Option String)
    (dbn : String) (pl row : Nat) (e : Entry) (names : List String)
    (hfind : list.find? (fun x => x.2 == row) = some e)
    (hfetch : env.listCollectionNames e.1 = Except.ok names) :
    (step env ⟨⟨State.Default, list, cn, cl, db, dbn, pl⟩, row⟩
        Key.enter).2.2 = RunRes.ok ∧
    (step env
        (step env ⟨⟨State.Default, list, cn, cl, db, dbn, pl⟩, row⟩
          Key.enter).1 Key.escape).2.2 = RunRes.ok ∧
    (step env
        (step env ⟨⟨State.Default, list, cn, cl, db, dbn, pl⟩, row⟩
          Key.enter).1 Key.escape).1.app.state = State.Default ∧
    (step env
        (step env ⟨⟨State.Default, list, cn, cl, db, dbn, pl⟩, row⟩
          Key.enter).1 Key.escape).1.app.list = list ∧
    (∀ a ∈ (step env
        (step env ⟨⟨State.Default, list, cn, cl, db, dbn, pl⟩, row⟩
          Key.enter).1 Key.escape).2.1, isFetch a = false) ∧
    (step env
        (step env ⟨⟨State.Default, list, cn, cl, db, dbn, pl⟩, row⟩
          Key.enter).1 Key.escape).2.1.filter isItemLine =
      (initialRender env
          ⟨State.Default, list, cn, cl, db, dbn, pl⟩).2.filter isItemLine := by
  have hstep1 : step env ⟨⟨State.Default, list, cn, cl, db, dbn, pl⟩, row⟩
      Key.enter =
      (⟨⟨State.InsideDatabase, list, cn,
          some (enumerateList names), some e.1, e.1, row⟩,
        clampRow env (row + 1)⟩,
       [Action.disableRaw, Action.clearScreen,
        Action.printHeader ("/" ++ e.1), Action.fetchListCollections e.1]
         ++ renderItems (enumerateList names)
         ++ [Action.moveToRow (row + 1), Action.enableRaw],
       RunRes.ok) := by
    simp [step, change_state, hfind, hfetch]
  rw [hstep1]
  refine ⟨rfl, ?_, ?_, ?_, ?_, ?_⟩
  · simp [step, change_state]
  · simp [step, change_state]
  · simp [step, change_state]
  · have htr : (step env
        (⟨⟨State.InsideDatabase, list, cn, some (enumerateList names),
            some e.1, e.1, row⟩, clampRow env (row + 1)⟩ : Sys)
          Key.escape).2.1 =
        [Action.disableRaw, Action.clearScreen] ++ renderItems list
          ++ [Action.moveToRow (row + 1), Action.enableRaw] := by
      simp [step, change_state]
    rw [htr]
    exact no_fetch_default_trace list (row + 1)
  · simp [step, change_state, initialRender, renderItems, isItemLine,
      List.filter_append]

/-- C7 (witness). -/
theorem confirm_cancel_round_trip_witness :
    ([(("alpha", 0) : Entry)].find? (fun x => x.2 == 0) = some ("alpha", 0) ∧
      envOk.listCollectionNames "alpha" = Except.ok ["c0", "c1"]) ∧
    ((step envOk ⟨⟨State.Default, [("alpha", 0)], "", none, none, "None", 1⟩,
        0⟩ Key.enter).2.2 = RunRes.ok ∧
      (step envOk
        (step envOk ⟨⟨State.Default, [("alpha", 0)], "", none, none, "None",
          1⟩, 0⟩ Key.enter).1 Key.escape).2.2 = RunRes.ok ∧
      (step envOk
        (step envOk ⟨⟨State.Default, [("alpha", 0)], "", none, none, "None",
          1⟩, 0⟩ Key.enter).1 Key.escape).1.app.state = State.Default ∧
      (step envOk
        (step envOk ⟨⟨State.Default, [("alpha", 0)], "", none, none, "None",
          1⟩, 0⟩ Key.enter).1 Key.escape).1.app.list = [("alpha", 0)] ∧
      (∀ a ∈ (step envOk
        (step envOk ⟨⟨State.Default, [("alpha", 0)], "", none, none, "None",
          1⟩, 0⟩ Key.enter).1 Key.escape).2.1, isFetch a = false) ∧
      (step envOk
        (step envOk ⟨⟨State.Default, [("alpha", 0)], "", none, none, "None",
          1⟩, 0⟩ Key.enter).1 Key.escape).2.1.filter isItemLine =
        (initialRender envOk
            ⟨State.Default, [("alpha", 0)], "", none, none, "None",
              1⟩).2.filter isItemLine) :=
  ⟨⟨by decide, rfl⟩,
   confirm_cancel_round_trip envOk [("alpha", 0)] "" none none "None" 1 0
     ("alpha", 0) ["c0", "c1"] (by decide) rfl⟩

/-- C8 (counterexample).  On a redraw at Root level the code does not move
the cursor to `previousRow + headerOffset` with the Root offset of 0: with
`previous_line = 0`, `change_state` into `Default` puts the cursor on row 1 —
`previous_line + 1`, one row below the claimed target. -/
theorem cursor_restore_root_cex :
    (change_state envOk ⟨{ initApp ["alpha"] with previous_line := 0 }, 5⟩
        State.Default (some "none")).1.row ≠
      ({ initApp ["alpha"] with previous_line := 0 } : App).previous_line +
        specHeaderOffset State.Default ∧
    (change_state envOk ⟨{ initApp ["alpha"] with previous_line := 0 }, 5⟩
        State.Default (some "none")).1.row =
      ({ initApp ["alpha"] with previous_line := 0 } : App).previous_line +
        1 := by
  decide

/-- C8 (amended).  After every successful `change_state` redraw the cursor is
moved to row `previous_line + 1` (clamped to the screen), uniformly in every
state: the offset of one row is applied at Root level as well, not only
inside a container or collection. -/
theorem cursor_restore_plus_one (env : Env) (s : Sys) (st : State)
    (d : Option String)
    (hok : (change_state env s st d).2.2 = RunRes.ok) :
    (change_state env s st d).1.row =
      clampRow env (s.app.previous_line + 1) ∧
    Action.moveToRow (s.app.previous_line + 1) ∈
      (change_state env s st d).2.1 := by
  cases st with
  | Default => exact ⟨rfl, by simp [change_state]⟩
  | InsideDatabase =>
      cases d with
      | none => simp [change_state] at hok
      | some name =>
          cases hfetch : env.listCollectionNames name with
          | error u => simp [change_state, hfetch] at hok
          | ok names => exact ⟨by simp [change_state, hfetch],
              by simp [change_state, hfetch]⟩
  | InsideCollection =>
      cases hdb : s.app.database with
      | none => simp [change_state, hdb] at hok
      | some dbh =>
          cases d with
          | none => simp [change_state, hdb] at hok
          | some coll =>
              cases hfetch : env.findRecords dbh coll with
              | error u => simp [change_state, hdb, hfetch] at hok
              | ok inner => exact ⟨by simp [change_state, hdb, hfetch],
                  by simp [change_state, hdb, hfetch]⟩

/-- C8 (witness for the amended theorem). -/
theorem cursor_restore_plus_one_witness :
    (change_state envOk ⟨dbAppEmpty, 5⟩ State.Default (some "none")).2.2 =
      RunRes.ok ∧
    ((change_state envOk ⟨dbAppEmpty, 5⟩ State.Default (some "none")).1.row =
      clampRow envOk (dbAppEmpty.previous_line + 1) ∧
    Action.moveToRow (dbAppEmpty.previous_line + 1) ∈
      (change_state envOk ⟨dbAppEmpty, 5⟩ State.Default (some "none")).2.1) :=
  ⟨by decide,
   cursor_restore_plus_one envOk ⟨dbAppEmpty, 5⟩ State.Default (some "none")
     (by decide)⟩

/-- A store whose find cursor opens but whose record stream fails
mid-stream. -/
def envMidFail : Env :=
  { listCollectionNames := fun _ => Except.ok ["c0"],
    findRecords := fun _ _ => Except.ok (Except.error ()),
    height := 24 }

/-- C9 (confirmed).  Entering a collection: if the find cursor cannot be
opened, the transition fails with the `No cursor found.` error and the `App`
is untouched; if the stream fails mid-way, the result degrades to an empty
record list — the render shows the header and no record line, exactly as for
a collection with zero records, which renders only the
`<container>/<collection>` header line and no body lines. -/
theorem in_collection_fetch (env : Env) (s : Sys) (dbh coll : String)
    (hdb : s.app.database = some dbh) :
    (env.findRecords dbh coll = Except.error () →
      change_state env s State.InsideCollection (some coll) =
        (⟨s.app, 0⟩,
         [Action.disableRaw, Action.clearScreen, Action.fetchFind dbh coll],
         RunRes.err Err.noCursor)) ∧
    (env.findRecords dbh coll = Except.ok (Except.error ()) →
      change_state env s State.InsideCollection (some coll) =
        (⟨s.app, clampRow env (s.app.previous_line + 1)⟩,
         [Action.disableRaw, Action.clearScreen, Action.fetchFind dbh coll,
          Action.printHeader (s.app.database_name ++ "/" ++ coll),
          Action.moveToRow (s.app.previous_line + 1), Action.enableRaw],
         RunRes.ok)) ∧
    (env.findRecords dbh coll = Except.ok (Except.ok []) →
      change_state env s State.InsideCollection (some coll) =
        (⟨s.app, clampRow env (s.app.previous_line + 1)⟩,
         [Action.disableRaw, Action.clearScreen, Action.fetchFind dbh coll,
          Action.printHeader (s.app.database_name ++ "/" ++ coll),
          Action.moveToRow (s.app.previous_line + 1), Action.enableRaw],
         RunRes.ok)) := by
  refine ⟨fun h => ?_, fun h => ?_, fun h => ?_⟩ <;>
    simp [change_state, hdb, h]

/-- C9 (witness).  With `database_name = "alpha"` and collection `"beta"`,
the zero-record and mid-stream-failure renders show only the header line
`"alpha/beta"`, and a failed cursor open yields the error. -/
theorem in_collection_fetch_witness :
    (dbAppEmpty.database = some "alpha" ∧
      envFail.findRecords "alpha" "beta" = Except.error () ∧
      envMidFail.findRecords "alpha" "beta" = Except.ok (Except.error ()) ∧
      envOk.findRecords "alpha" "beta" = Except.ok (Except.ok [])) ∧
    change_state envFail ⟨dbAppEmpty, 1⟩ State.InsideCollection
        (some "beta") =
      (⟨dbAppEmpty, 0⟩,
       [Action.disableRaw, Action.clearScreen, Action.fetchFind "alpha" "beta"],
       RunRes.err Err.noCursor) ∧
    change_state envMidFail ⟨dbAppEmpty, 1⟩ State.InsideCollection
        (some "beta") =
      (⟨dbAppEmpty, clampRow envMidFail (dbAppEmpty.previous_line + 1)⟩,
       [Action.disableRaw, Action.clearScreen, Action.fetchFind "alpha" "beta",
        Action.printHeader "alpha/beta",
        Action.moveToRow (dbAppEmpty.previous_line + 1), Action.enableRaw],
       RunRes.ok) ∧
    change_state envOk ⟨dbAppEmpty, 1⟩ State.InsideCollection
        (some "beta") =
      (⟨dbAppEmpty, clampRow envOk (dbAppEmpty.previous_line + 1)⟩,
       [Action.disableRaw, Action.clearScreen, Action.fetchFind "alpha" "beta",
        Action.printHeader "alpha/beta",
        Action.moveToRow (dbAppEmpty.previous_line + 1), Action.enableRaw],
       RunRes.ok) :=
  ⟨⟨rfl, rfl, rfl, rfl⟩,
   (in_collection_fetch envFail ⟨dbAppEmpty, 1⟩ "alpha" "beta" rfl).1 rfl,
   (in_collection_fetch envMidFail ⟨dbAppEmpty, 1⟩ "alpha" "beta" rfl).2.1 rfl,
   (in_collection_fetch envOk ⟨dbAppEmpty, 1⟩ "alpha" "beta" rfl).2.2 rfl⟩

/-- C10 (confirmed).  Cancelling from inside a database back to Root changes
only the `state` field (and the rendered screen and cursor): `list`,
`collection_name`, `collection_list`, `database`, `database_name` and
`previous_line` all keep the values they had inside the abandoned database,
and the render issues no remote call. -/
theorem cancel_frame (env : Env) (list : List Entry) (cn : String)
    (cl : Option (List Entry)) (db : Option String) (dbn : String)
    (pl row : Nat) :
    step env ⟨⟨State.InsideDatabase, list, cn, cl, db, dbn, pl⟩, row⟩
        Key.escape =
      (⟨⟨State.Default, list, cn, cl, db, dbn, pl⟩, clampRow env (pl + 1)⟩,
       [Action.disableRaw, Action.clearScreen] ++ renderItems list
         ++ [Action.moveToRow (pl + 1), Action.enableRaw],
       RunRes.ok) := by
  simp [step, change_state]

end Termongo
